import Mathlib

/-!
Shallow embedding of the `websocket-client-npm` package.

The embedding covers `src/SimpleWebSocket.js` (constructor, `connect`,
`send`, `getStatus`, transport open/close events as observed by the test
mock) and, for the parts of `WebSocketClient.js` whose source is not in
the repository snapshot, models reconstructed from the specification
(each such definition carries a doc comment starting with
`Modelled from the spec:`).
-/

/-- A JavaScript value, as far as the claims need it: the falsy values
(`undefined`, `null`, `false`, `0`, the empty string) must be
distinguishable from truthy ones, and strings must be storable. -/
inductive JSValue where
  | undefined
  | null
  | bool (b : Bool)
  | num (n : Int)
  | str (s : String)
deriving DecidableEq, Repr

/-- JavaScript truthiness, restricted to the values of `JSValue`:
`undefined`, `null`, `false`, `0` and `""` are falsy, everything else
is truthy (this mirrors the `!data` / `if (this.appId)` tests in the
source). -/
def truthy : JSValue → Bool
  | .undefined => false
  | .null => false
  | .bool b => b
  | .num n => n != 0
  | .str s => s != ""

/-- The apostrophe character, used to spell string literals of the source. -/
def apos : String := String.singleton (Char.ofNat 39)

/-- Error message from `SimpleWebSocket.send` for a falsy payload
(source line 152). -/
def undefinedDataMessage : String := "undefined data detected."

/-- Error message from `SimpleWebSocket.send` when `this.webSocket` is
not set (source line 162). -/
def notInitializedMessage : String := "WebSocket not initialized."

/-- Error message from `SimpleWebSocket.send` when the socket exists but
`readyState !== 1` (source line 177). -/
def notOpenMessage : String :=
  "WebSocket Connection not open. Couldn" ++ apos ++ "t send data."

/-- Error message from the catch branch of `SimpleWebSocket.send`
(source line 187). -/
def sendErrorMessage : String := "Error while sending the data."

/-- Constructor error for a missing url (source line 26). -/
def urlRequiredMessage : String := "url is required in the options."

/-- The transport URL built by `SimpleWebSocket.connect`: the configured
base url plus the query parameters appended by `url.searchParams.append`,
in source order. -/
structure URLRecord where
  base : JSValue
  params : List (String × JSValue)
deriving DecidableEq, Repr

/-- The underlying `window.WebSocket` object, as far as the client reads
it: the url it was constructed with and its numeric `readyState`. -/
structure WSSocket where
  transportUrl : URLRecord
  readyState : Nat
deriving DecidableEq, Repr

/-- The state of a `SimpleWebSocket` instance: the stored attributes
`url`, `accessToken`, `appId`, `appSecret` and the optional underlying
socket (`none` when no socket was created). -/
structure SimpleWebSocket where
  url : JSValue
  accessToken : JSValue
  appId : JSValue
  appSecret : JSValue
  webSocket : Option WSSocket
deriving DecidableEq, Repr

/-- The constructor options object; absent fields are `undefined`. -/
structure Options where
  url : JSValue := .undefined
  accessToken : JSValue := .undefined
  appId : JSValue := .undefined
  appSecret : JSValue := .undefined
deriving DecidableEq, Repr

namespace SimpleWebSocket

/-- The URL handed to `new window.WebSocket(...)` by `connect` (source
lines 116-119): start from `this.url`, then append `appId`, `appSecret`
and `token` query parameters for each truthy auth attribute. -/
def buildConnectUrl (url accessToken appId appSecret : JSValue) : URLRecord :=
  { base := url
    params :=
      (if truthy appId then [("appId", appId)] else []) ++
      (if truthy appSecret then [("appSecret", appSecret)] else []) ++
      (if truthy accessToken then [("token", accessToken)] else []) }

/-- `connect` (source lines 113-143): in an environment with
`window.WebSocket` it creates the socket (readyState 0, CONNECTING) on
the built URL; otherwise it only reports an error and leaves
`this.webSocket` unset. -/
def connectSocket (url accessToken appId appSecret : JSValue)
    (envHasWebSocket : Bool) : Option WSSocket :=
  if envHasWebSocket then
    some { transportUrl := buildConnectUrl url accessToken appId appSecret
           readyState := 0 }
  else
    none

/-- The constructor (source lines 24-46): throws when `options.url` is
falsy; otherwise stores `url`, `accessToken := options.accessToken or
the empty string`, `appId` and `appSecret` verbatim, and calls
`connect`. -/
def construct (options : Options) (envHasWebSocket : Bool) :
    Except String SimpleWebSocket :=
  if ¬ truthy options.url then
    .error urlRequiredMessage
  else
    let accessToken :=
      if truthy options.accessToken then options.accessToken else .str ""
    .ok { url := options.url
          accessToken := accessToken
          appId := options.appId
          appSecret := options.appSecret
          webSocket := connectSocket options.url accessToken options.appId
            options.appSecret envHasWebSocket }

/-- The error object handed to the `send` callback: always a `message`
string, plus a `readyState` field in the not-open case and an
`originalError` field in the catch branch. -/
structure ErrObj where
  message : String
  readyState : Option Nat
  hasOriginalError : Bool
deriving DecidableEq, Repr

/-- One invocation of the `send` callback: `cb(error)` or
`cb(null, \x7b success: true \x7d)`. -/
inductive CallbackCall where
  | err (e : ErrObj)
  | ok
deriving DecidableEq, Repr

/-- The observable effect of one `send` call: the callback was invoked,
or a message was logged to the console, or nothing happened (success
with no callback supplied). -/
inductive SendEffect where
  | calledCb (c : CallbackCall)
  | logged (msg : String)
  | noEffect
deriving DecidableEq, Repr

/-- The full outcome of one `send` call: its effect plus the payload
handed to the transport `webSocket.send`, when it was handed over at
all. -/
structure SendOutcome where
  effect : SendEffect
  sentToTransport : Option JSValue
deriving DecidableEq, Repr

/-- `send(data, cb)` (source lines 150-194). `hasCb` says whether a
callback was supplied; `tsend` is the transport-level
`this.webSocket.send`, which may throw (`Except.error`). The try/catch
of the source becomes the match on `tsend data`. -/
def send (ws : SimpleWebSocket) (data : JSValue) (hasCb : Bool)
    (tsend : JSValue → Except String Unit) : SendOutcome :=
  if ¬ truthy data then
    { effect :=
        if hasCb then .calledCb (.err ⟨undefinedDataMessage, none, false⟩)
        else .logged undefinedDataMessage
      sentToTransport := none }
  else
    match ws.webSocket with
    | none =>
        { effect :=
            if hasCb then .calledCb (.err ⟨notInitializedMessage, none, false⟩)
            else .logged notInitializedMessage
          sentToTransport := none }
    | some sock =>
        if sock.readyState = 1 then
          match tsend data with
          | .ok _ =>
              { effect := if hasCb then .calledCb .ok else .noEffect
                sentToTransport := some data }
          | .error _ =>
              { effect :=
                  if hasCb then .calledCb (.err ⟨sendErrorMessage, none, true⟩)
                  else .logged sendErrorMessage
                sentToTransport := some data }
        else
          { effect :=
              if hasCb then
                .calledCb (.err ⟨notOpenMessage, some sock.readyState, false⟩)
              else .logged notOpenMessage
            sentToTransport := none }

/-- The `readyState` field of a status snapshot is either the numeric
transport readyState or the literal string NOT_INITIALIZED. -/
inductive ReadyStateField where
  | num (n : Nat)
  | notInitialized
deriving DecidableEq, Repr

/-- The object returned by `getStatus` (source lines 209-226). The
`Option`-typed fields are `none` when the corresponding key is absent
from the returned object (the not-initialized branch returns only
`connected`, `readyState` and `url`). -/
structure Status where
  connected : Bool
  readyState : ReadyStateField
  url : JSValue
  appId : Option JSValue
  hasAppSecret : Option Bool
  hasAccessToken : Option Bool
deriving DecidableEq, Repr

/-- `getStatus()` (source lines 209-226): a pure read of the client
state. -/
def getStatus (ws : SimpleWebSocket) : Status :=
  match ws.webSocket with
  | none =>
      { connected := false
        readyState := .notInitialized
        url := ws.url
        appId := none
        hasAppSecret := none
        hasAccessToken := none }
  | some sock =>
      { connected := sock.readyState == 1
        readyState := .num sock.readyState
        url := ws.url
        appId := some ws.appId
        hasAppSecret := some (truthy ws.appSecret)
        hasAccessToken := some (truthy ws.accessToken) }

/-- A transport open event as the test mock produces it
(`part_000` lines 17-20): the socket readyState becomes 1 before the
`onopen` handler runs. -/
def onOpenEvent (ws : SimpleWebSocket) : SimpleWebSocket :=
  { ws with webSocket := ws.webSocket.map fun s => { s with readyState := 1 } }

/-- A transport close event as the test mock produces it
(`part_000` lines 32-35): the socket readyState becomes 3 before the
`onclose` handler runs. -/
def onCloseEvent (ws : SimpleWebSocket) : SimpleWebSocket :=
  { ws with webSocket := ws.webSocket.map fun s => { s with readyState := 3 } }

/-- The reporting discipline of `send`: with a callback the outcome is
always delivered through the callback, and any error object carries a
non-empty message; without a callback the outcome is logged, except for
a silent success. -/
def reportedOk (o : SendOutcome) (hasCb : Bool) : Bool :=
  match o.effect, hasCb with
  | .calledCb (.err e), true => e.message != ""
  | .calledCb .ok, true => true
  | .logged m, false => m != ""
  | .noEffect, false => true
  | _, _ => false

end SimpleWebSocket

namespace WebSocketClient

/-- Modelled from the spec: `WebSocketClient.js` is not in the source
snapshot (only its test file is). Spec section 4.4: ping sends the
literal sentinel `Ping` directly to the transport, bypassing the
envelope codec — `pingFrame` is the exact text handed to the transport
`send` by `ping()`. -/
def pingFrame : String := "Ping"

/-- Modelled from the spec: the pong sentinel literal (glossary and
section 3). -/
def pongSentinel : String := "Pong"

/-- Modelled from the spec: section 3 classifies an inbound raw frame as
Pong-sentinel when the raw payload equals the literal string `Pong` or
is empty. -/
def isPongSentinel (raw : String) : Bool := raw == pongSentinel || raw == ""

/-- One dispatch of the event registry: the event name dispatched under
and the payload handed to the subscribers. -/
structure DispatchCall where
  eventName : String
  payload : String
deriving DecidableEq, Repr

/-- Modelled from the spec: `WebSocketClient.js` is not in the source
snapshot. Sections 3 and 4.3: an inbound raw frame is first checked
against the pong sentinel and, when it matches, dispatched under event
name `Pong` with the raw frame as payload, with no JSON parsing
attempted; otherwise the JSON classifier runs (a parameter here, since
no claim depends on its internals): a structured frame dispatches under
its event name with its extracted payload, and anything that fails to
parse degrades to event name `message` with the raw frame. -/
def routeInbound (classifyJson : String → Option (String × String))
    (raw : String) : DispatchCall :=
  if isPongSentinel raw then
    { eventName := "Pong", payload := raw }
  else
    match classifyJson raw with
    | some p => { eventName := p.1, payload := p.2 }
    | none => { eventName := "message", payload := raw }

/-- Modelled from the spec: the event dispatcher registry (section 4.1),
a mapping from event name to the ordered list of registered callbacks,
kept here as one insertion-ordered list of (event name, callback handle)
pairs; callback handles are opaque naturals. -/
structure Dispatcher where
  regs : List (String × Nat)
deriving DecidableEq, Repr

/-- Modelled from the spec: `on(eventName, callback)` registers the
callback at the end of the registration order (section 4.1); `on` itself
is a reserved token in Lean, hence the longer name. -/
def onEvent (d : Dispatcher) (name : String) (cb : Nat) : Dispatcher :=
  { regs := d.regs ++ [(name, cb)] }

/-- Remove the first occurrence of a registration from the list. -/
def removeFirst : List (String × Nat) → (String × Nat) → List (String × Nat)
  | [], _ => []
  | r :: rs, t => if r = t then rs else r :: removeFirst rs t

/-- Modelled from the spec: `off(eventName, callback)` removes the first
matching registration for that name, a no-op when absent
(section 4.1). -/
def off (d : Dispatcher) (name : String) (cb : Nat) : Dispatcher :=
  { regs := removeFirst d.regs (name, cb) }

/-- Modelled from the spec: `dispatch(eventName, payload)` invokes, in
insertion order, every callback registered under the event name, then
every callback registered under the wildcard name `*` (section 4.1).
This returns the callback handles in invocation order. -/
def dispatchTargets (d : Dispatcher) (name : String) : List Nat :=
  ((d.regs.filter fun r => r.1 == name).map fun r => r.2) ++
  ((d.regs.filter fun r => r.1 == "*").map fun r => r.2)

end WebSocketClient

/-! Concrete fixtures, mirroring the test suite's mock socket states. -/

/-- A transport `send` that succeeds on every payload. -/
def tsendOk : JSValue → Except String Unit := fun _ => .ok ()

/-- A transport `send` that throws on every payload. -/
def tsendThrows : JSValue → Except String Unit := fun _ => .error "boom"

/-- A client whose socket is still connecting (readyState 0), as right
after construction against the mock. -/
def wsConnecting : SimpleWebSocket :=
  { url := .str "wss://test.com"
    accessToken := .str ""
    appId := .undefined
    appSecret := .undefined
    webSocket := some { transportUrl := { base := .str "wss://test.com", params := [] }
                        readyState := 0 } }

/-- A client whose socket is open (readyState 1). -/
def wsOpen : SimpleWebSocket :=
  { wsConnecting with
    webSocket := some { transportUrl := { base := .str "wss://test.com", params := [] }
                        readyState := 1 } }

/-- A client with no underlying socket object. -/
def wsNoSocket : SimpleWebSocket :=
  { wsConnecting with webSocket := none }

/-! Helper lemmas about first-occurrence removal in the dispatcher. -/

namespace WebSocketClient

theorem not_mem_removeFirst (l : List (String × Nat)) (t : String × Nat)
    (h : l.count t ≤ 1) : t ∉ removeFirst l t := by
  induction l with
  | nil => simp [removeFirst]
  | cons r rs ih =>
    by_cases hrt : r = t
    · subst hrt
      have hz : rs.count r = 0 := by
        have hc := h
        simp [List.count_cons] at hc
        omega
      simpa [removeFirst] using List.count_eq_zero.mp hz
    · have hcount : rs.count t ≤ 1 := by
        have hc := h
        simp [List.count_cons, Ne.symm hrt] at hc
        omega
      simp [removeFirst, hrt]
      exact ⟨fun he => hrt he.symm, ih hcount⟩

theorem mem_of_mem_removeFirst (l : List (String × Nat)) (t x : String × Nat)
    (h : x ∈ removeFirst l t) : x ∈ l := by
  induction l with
  | nil => simp [removeFirst] at h
  | cons r rs ih =>
    by_cases hrt : r = t
    · subst hrt
      simp [removeFirst] at h
      exact List.mem_cons_of_mem _ h
    · simp [removeFirst, hrt] at h
      rcases h with h | h
      · simp [h]
      · exact List.mem_cons_of_mem _ (ih h)

theorem removeFirst_eq_of_not_mem (l : List (String × Nat)) (t : String × Nat)
    (h : t ∉ l) : removeFirst l t = l := by
  induction l with
  | nil => simp [removeFirst]
  | cons r rs ih =>
    have hrt : r ≠ t := fun he => h (he ▸ List.mem_cons_self r rs)
    have hnt : t ∉ rs := fun hm => h (List.mem_cons_of_mem _ hm)
    simp [removeFirst, hrt, ih hnt]

end WebSocketClient

/-! The claims. -/

/-- C1, counterexample: constructing with only a url succeeds, but the
stored `accessToken` attribute is the empty string (the constructor runs
`options.accessToken || ""`), not `undefined` as the claim states for
every optional auth field. -/
theorem construct_accessToken_is_empty_string :
    SimpleWebSocket.construct { url := JSValue.str "wss://test.com" } true =
      .ok { url := .str "wss://test.com"
            accessToken := .str ""
            appId := .undefined
            appSecret := .undefined
            webSocket := some { transportUrl := { base := .str "wss://test.com", params := [] }
                                readyState := 0 } } ∧
    JSValue.str "" ≠ JSValue.undefined := by
  exact ⟨rfl, by decide⟩

/-- C1 (amended): constructing with a falsy url throws the configuration
error `url is required in the options.`; constructing with only a url
succeeds, with `appId` and `appSecret` left `undefined` and
`accessToken` set to the empty string. -/
theorem construct_url_required (env : Bool) (options : Options)
    (hfalse : truthy options.url = false) (u : JSValue) (hu : truthy u = true) :
    SimpleWebSocket.construct options env = .error urlRequiredMessage ∧
    SimpleWebSocket.construct { url := u } env =
      .ok { url := u
            accessToken := .str ""
            appId := .undefined
            appSecret := .undefined
            webSocket := SimpleWebSocket.connectSocket u (.str "") .undefined .undefined env } := by
  constructor
  · simp [SimpleWebSocket.construct, hfalse]
  · have hacc : truthy JSValue.undefined = false := rfl
    simp [SimpleWebSocket.construct, hu, hacc]

/-- C1 witness: the amended theorem applied at a concrete missing-url
options object and the concrete url `wss://test.com`. -/
theorem construct_url_required_witness :
    SimpleWebSocket.construct {} true = .error urlRequiredMessage ∧
    SimpleWebSocket.construct { url := JSValue.str "wss://test.com" } true =
      .ok { url := .str "wss://test.com"
            accessToken := .str ""
            appId := .undefined
            appSecret := .undefined
            webSocket := SimpleWebSocket.connectSocket (.str "wss://test.com") (.str "")
              .undefined .undefined true } :=
  construct_url_required true {} (by decide) (JSValue.str "wss://test.com") (by decide)

/-- C2: sending a truthy payload with a callback while the socket exists
but its readyState is not 1 invokes the callback with an error object
whose message is `WebSocket Connection not open. Couldn◌t send data.`
(and whose readyState field carries the socket readyState), hands
nothing to the transport, and returns normally. -/
theorem send_not_open (ws : SimpleWebSocket) (sock : WSSocket) (data : JSValue)
    (tsend : JSValue → Except String Unit) (hsock : ws.webSocket = some sock)
    (hstate : sock.readyState ≠ 1) (hdata : truthy data = true) :
    ws.send data true tsend =
      { effect := .calledCb (.err { message := notOpenMessage
                                    readyState := some sock.readyState
                                    hasOriginalError := false })
        sentToTransport := none } := by
  simp [SimpleWebSocket.send, hsock, hstate, hdata]

/-- C2 witness: the theorem applied to the connecting-state fixture
(readyState 0) and the payload `test`. -/
theorem send_not_open_witness :
    wsConnecting.send (.str "test") true tsendOk =
      { effect := .calledCb (.err { message := notOpenMessage
                                    readyState := some 0
                                    hasOriginalError := false })
        sentToTransport := none } :=
  send_not_open wsConnecting
    { transportUrl := { base := .str "wss://test.com", params := [] }, readyState := 0 }
    (.str "test") tsendOk rfl (by decide) (by decide)

/-- C3: sending `undefined` invokes the callback (when supplied, else
logs) with an error whose message is `undefined data detected.`,
whatever the client state — the socket is never inspected and nothing
reaches the transport. -/
theorem send_undefined_data (ws : SimpleWebSocket) (hasCb : Bool)
    (tsend : JSValue → Except String Unit) :
    ws.send .undefined hasCb tsend =
      { effect :=
          if hasCb then .calledCb (.err { message := undefinedDataMessage
                                          readyState := none
                                          hasOriginalError := false })
          else .logged undefinedDataMessage
        sentToTransport := none } := by
  simp [SimpleWebSocket.send, truthy]

/-- C4: `send` always reports its outcome through the supplied callback
(`cb(error)` with a non-empty message, or `cb(null, result)`), else
through the log; it never throws — its result type is a plain
`SendOutcome`, the transport exception being caught and converted by the
embedded try/catch. Quantified over every client state, payload,
callback presence and transport behavior. -/
theorem send_always_reports (ws : SimpleWebSocket) (data : JSValue) (hasCb : Bool)
    (tsend : JSValue → Except String Unit) :
    SimpleWebSocket.reportedOk (ws.send data hasCb tsend) hasCb = true := by
  unfold SimpleWebSocket.send
  by_cases hd : truthy data
  · simp only [hd]
    match hws : ws.webSocket with
    | none =>
        cases hasCb <;> simp [SimpleWebSocket.reportedOk, notInitializedMessage]
    | some sock =>
        by_cases hrs : sock.readyState = 1
        · match ht : tsend data with
          | .ok _ =>
              cases hasCb <;>
                simp [hrs, ht, SimpleWebSocket.reportedOk]
          | .error e =>
              cases hasCb <;>
                simp [hrs, ht, SimpleWebSocket.reportedOk, sendErrorMessage]
        · cases hasCb <;>
            simp [hrs, SimpleWebSocket.reportedOk, notOpenMessage, apos] <;> decide
  · simp only [hd]
    cases hasCb <;>
      simp [SimpleWebSocket.reportedOk, undefinedDataMessage]

/-- C5: constructing with truthy `appId`, `appSecret` and `accessToken`
hands the transport the configured url with the three auth values
appended as query parameters (`appId`, `appSecret`, `token`), while the
stored `url` attribute stays the configured url itself. -/
theorem construct_injects_auth_params (u aId aSec tok : JSValue)
    (hu : truthy u = true) (ha : truthy aId = true)
    (hs : truthy aSec = true) (ht : truthy tok = true) :
    SimpleWebSocket.construct
        { url := u, accessToken := tok, appId := aId, appSecret := aSec } true =
      .ok { url := u
            accessToken := tok
            appId := aId
            appSecret := aSec
            webSocket := some
              { transportUrl :=
                  { base := u
                    params := [("appId", aId), ("appSecret", aSec), ("token", tok)] }
                readyState := 0 } } := by
  simp [SimpleWebSocket.construct, SimpleWebSocket.connectSocket,
    SimpleWebSocket.buildConnectUrl, hu, ha, hs, ht]

/-- C5 witness: the theorem applied at the test fixture values
(`test-app`, `test-secret`, `test-token`). -/
theorem construct_injects_auth_params_witness :
    SimpleWebSocket.construct
        { url := JSValue.str "wss://test.com"
          accessToken := JSValue.str "test-token"
          appId := JSValue.str "test-app"
          appSecret := JSValue.str "test-secret" } true =
      .ok { url := .str "wss://test.com"
            accessToken := .str "test-token"
            appId := .str "test-app"
            appSecret := .str "test-secret"
            webSocket := some
              { transportUrl :=
                  { base := .str "wss://test.com"
                    params := [("appId", .str "test-app"),
                               ("appSecret", .str "test-secret"),
                               ("token", .str "test-token")] }
                readyState := 0 } } :=
  construct_injects_auth_params (.str "wss://test.com") (.str "test-app")
    (.str "test-secret") (.str "test-token") (by decide) (by decide) (by decide) (by decide)

/-- C6: `getStatus` is a pure read — in the model it is a plain function
of the client state, returning the snapshot record and leaving the
client untouched — whose `connected` flag is true exactly when the
underlying socket readyState is 1; consistently with the most recent
transport event, the snapshot taken after an open event shows
`connected = true` and after a close event `connected = false`. -/
theorem getStatus_connected_iff (ws : SimpleWebSocket) (sock : WSSocket)
    (h : ws.webSocket = some sock) :
    ws.getStatus =
      { connected := sock.readyState == 1
        readyState := .num sock.readyState
        url := ws.url
        appId := some ws.appId
        hasAppSecret := some (truthy ws.appSecret)
        hasAccessToken := some (truthy ws.accessToken) } ∧
    ((ws.getStatus).connected = true ↔ sock.readyState = 1) ∧
    (SimpleWebSocket.onOpenEvent ws).getStatus.connected = true ∧
    (SimpleWebSocket.onCloseEvent ws).getStatus.connected = false := by
  refine ⟨?_, ?_, ?_, ?_⟩
  · simp [SimpleWebSocket.getStatus, h]
  · simp [SimpleWebSocket.getStatus, h]
  · simp [SimpleWebSocket.getStatus, SimpleWebSocket.onOpenEvent, h]
  · simp [SimpleWebSocket.getStatus, SimpleWebSocket.onCloseEvent, h]

/-- C6 witness: the theorem applied to the open-socket fixture. -/
theorem getStatus_connected_iff_witness :
    wsOpen.getStatus =
      { connected := true
        readyState := .num 1
        url := .str "wss://test.com"
        appId := some .undefined
        hasAppSecret := some false
        hasAccessToken := some false } ∧
    (SimpleWebSocket.onOpenEvent wsOpen).getStatus.connected = true ∧
    (SimpleWebSocket.onCloseEvent wsOpen).getStatus.connected = false := by
  have h := getStatus_connected_iff wsOpen
    { transportUrl := { base := .str "wss://test.com", params := [] }, readyState := 1 } rfl
  exact ⟨by simpa [wsOpen, wsConnecting] using h.1, h.2.2.1, h.2.2.2⟩

/-- C7: `ping()` hands the transport the literal sentinel `Ping`
(bypassing the JSON envelope), and an inbound raw frame equal to the
pong sentinel `Pong` (or empty) is routed to a dispatch under event name
`Pong` with the raw frame itself as payload — for every JSON classifier,
so no JSON parsing takes part in the result. -/
theorem ping_pong_sentinel (classifyJson : String → Option (String × String))
    (raw : String) (h : WebSocketClient.isPongSentinel raw = true) :
    WebSocketClient.pingFrame = "Ping" ∧
    WebSocketClient.routeInbound classifyJson raw =
      { eventName := "Pong", payload := raw } :=
  ⟨rfl, by simp [WebSocketClient.routeInbound, h]⟩

/-- A JSON classifier that parses nothing, for the C7 witness. -/
def classifyNone : String → Option (String × String) := fun _ => none

/-- C7 witness: the theorem applied to the frame `Pong` under the
trivial classifier. -/
theorem ping_pong_sentinel_witness :
    WebSocketClient.pingFrame = "Ping" ∧
    WebSocketClient.routeInbound classifyNone "Pong" =
      { eventName := "Pong", payload := "Pong" } :=
  ping_pong_sentinel classifyNone "Pong" (by decide)

/-- C8, counterexample: `off` removes only the first matching
registration, so a callback registered twice under `testEvent` — or
once under `testEvent` and once under the wildcard — is still invoked
by a dispatch under `testEvent` performed immediately after
`off("testEvent", callback)`. -/
theorem off_removed_callback_still_invoked :
    WebSocketClient.dispatchTargets
        (WebSocketClient.off
          (WebSocketClient.onEvent
            (WebSocketClient.onEvent { regs := [] } "testEvent" 0) "testEvent" 0)
          "testEvent" 0) "testEvent" = [0] ∧
    WebSocketClient.dispatchTargets
        (WebSocketClient.off
          (WebSocketClient.onEvent
            (WebSocketClient.onEvent { regs := [] } "*" 0) "testEvent" 0)
          "testEvent" 0) "testEvent" = [0] := by
  decide

/-- C8 (amended): after `off(eventName, callback)`, a callback that was
registered at most once under that event name and holds no wildcard
registration is never invoked for a message dispatched under that event
name afterwards; and `off` on an absent registration leaves the
dispatcher unchanged. -/
theorem off_unique_registration_not_invoked (d : WebSocketClient.Dispatcher)
    (name : String) (cb : Nat)
    (hcount : d.regs.count (name, cb) ≤ 1)
    (hwild : ("*", cb) ∉ d.regs) :
    cb ∉ WebSocketClient.dispatchTargets (WebSocketClient.off d name cb) name ∧
    ((name, cb) ∉ d.regs → WebSocketClient.off d name cb = d) := by
  constructor
  · intro hmem
    simp only [WebSocketClient.dispatchTargets, WebSocketClient.off,
      List.mem_append, List.mem_map, List.mem_filter, beq_iff_eq] at hmem
    rcases hmem with ⟨r, ⟨hr, hfst⟩, hsnd⟩ | ⟨r, ⟨hr, hfst⟩, hsnd⟩
    · have hreq : r = (name, cb) := Prod.ext hfst hsnd
      rw [hreq] at hr
      exact WebSocketClient.not_mem_removeFirst d.regs (name, cb) hcount hr
    · have hreq : r = ("*", cb) := Prod.ext hfst hsnd
      rw [hreq] at hr
      exact hwild (WebSocketClient.mem_of_mem_removeFirst d.regs (name, cb) _ hr)
  · intro habs
    simp [WebSocketClient.off,
      WebSocketClient.removeFirst_eq_of_not_mem d.regs (name, cb) habs]

/-- A sample dispatcher with one registration under `other` and one
under `testEvent`, for the C8 witness. -/
def dSample : WebSocketClient.Dispatcher :=
  { regs := [("other", 1), ("testEvent", 0)] }

/-- C8 witness: the amended theorem applied to the sample dispatcher —
once to remove the unique `testEvent` registration, once on an absent
registration. -/
theorem off_unique_registration_not_invoked_witness :
    (0 : Nat) ∉ WebSocketClient.dispatchTargets
        (WebSocketClient.off dSample "testEvent" 0) "testEvent" ∧
    WebSocketClient.off dSample "absent" 2 = dSample :=
  ⟨(off_unique_registration_not_invoked dSample "testEvent" 0 (by decide) (by decide)).1,
   (off_unique_registration_not_invoked dSample "absent" 2 (by decide) (by decide)).2
     (by decide)⟩

/-- C9: every falsy payload — `undefined`, `null`, the empty string,
`0`, `false` — makes `send` report the `undefined data detected.` error
(through the callback when supplied, else the log) and hand nothing to
the transport, whatever the socket state. -/
theorem send_falsy_data (ws : SimpleWebSocket) (data : JSValue) (hasCb : Bool)
    (tsend : JSValue → Except String Unit) (h : truthy data = false) :
    ws.send data hasCb tsend =
      { effect :=
          if hasCb then .calledCb (.err { message := undefinedDataMessage
                                          readyState := none
                                          hasOriginalError := false })
          else .logged undefinedDataMessage
        sentToTransport := none } := by
  simp [SimpleWebSocket.send, h]

/-- C9 witness: the theorem applied, on the open-socket fixture, to each
falsy payload the claim lists. -/
theorem send_falsy_data_witness :
    wsOpen.send .null true tsendOk =
      { effect := .calledCb (.err { message := undefinedDataMessage
                                    readyState := none
                                    hasOriginalError := false })
        sentToTransport := none } ∧
    wsOpen.send (.str "") true tsendOk =
      { effect := .calledCb (.err { message := undefinedDataMessage
                                    readyState := none
                                    hasOriginalError := false })
        sentToTransport := none } ∧
    wsOpen.send (.num 0) true tsendOk =
      { effect := .calledCb (.err { message := undefinedDataMessage
                                    readyState := none
                                    hasOriginalError := false })
        sentToTransport := none } ∧
    wsOpen.send (.bool false) true tsendOk =
      { effect := .calledCb (.err { message := undefinedDataMessage
                                    readyState := none
                                    hasOriginalError := false })
        sentToTransport := none } :=
  ⟨by simpa using send_falsy_data wsOpen .null true tsendOk (by decide),
   by simpa using send_falsy_data wsOpen (.str "") true tsendOk (by decide),
   by simpa using send_falsy_data wsOpen (.num 0) true tsendOk (by decide),
   by simpa using send_falsy_data wsOpen (.bool false) true tsendOk (by decide)⟩

/-- C10: with no underlying socket object, `send` of a truthy payload
reports the distinct `WebSocket not initialized.` message — not the
not-open message — and `getStatus` returns only
`connected = false`, the string readyState NOT_INITIALIZED and the url,
with no further fields. -/
theorem send_no_socket_and_status (ws : SimpleWebSocket) (data : JSValue)
    (tsend : JSValue → Except String Unit)
    (hws : ws.webSocket = none) (hdata : truthy data = true) :
    ws.send data true tsend =
      { effect := .calledCb (.err { message := notInitializedMessage
                                    readyState := none
                                    hasOriginalError := false })
        sentToTransport := none } ∧
    notInitializedMessage ≠ notOpenMessage ∧
    ws.getStatus =
      { connected := false
        readyState := .notInitialized
        url := ws.url
        appId := none
        hasAppSecret := none
        hasAccessToken := none } := by
  refine ⟨?_, by decide, ?_⟩
  · simp [SimpleWebSocket.send, hdata, hws]
  · simp [SimpleWebSocket.getStatus, hws]

/-- C10 witness: the theorem applied to the socketless fixture and the
payload `test`. -/
theorem send_no_socket_and_status_witness :
    wsNoSocket.send (.str "test") true tsendOk =
      { effect := .calledCb (.err { message := notInitializedMessage
                                    readyState := none
                                    hasOriginalError := false })
        sentToTransport := none } ∧
    notInitializedMessage ≠ notOpenMessage ∧
    wsNoSocket.getStatus =
      { connected := false
        readyState := .notInitialized
        url := .str "wss://test.com"
        appId := none
        hasAppSecret := none
        hasAccessToken := none } :=
  send_no_socket_and_status wsNoSocket (.str "test") tsendOk rfl (by decide)
